import Mathlib

/-!
# Payment service: charge orchestration, query surface and webhook handler

A shallow embedding of `internal/core/services/omise.go` (the service) and of
`HandleWebhook` from `internal/adapter/handler/http/omise.go`.

The service talks to three collaborators that are interfaces or libraries,
not code of the service: the payment gateway (`omise.NewClient`, `client.Do`),
the user repository and the transaction repository.  Their behaviour is a
parameter (`Ports`): every collaborator call is a function on the
collaborator's own state.  The embedding threads a `World` through each
operation and appends one `Event` to `World.trace` for each collaborator call,
in program order, so that "which requests were sent" and "was the ledger
touched" are properties of the returned world.

Conventions: Go `int64` and `int` are 64 bit and modelled by `Int`; `uint` is
`Nat` below `2 ^ 64`; a Go `(value, error)` pair is an `Except`; a run-time
panic of a handler is the `error` side of its `Except RuntimePanic`.  Output on
standard output (`fmt.Println`, `log.Println`) is not modelled.
-/

namespace Payment

/-! ## Data model -/

/-- Kind of a `*strconv.NumError`: `strconv.ErrSyntax` or `strconv.ErrRange`. -/
inductive NumErrorKind where
  | invalid
  | range
  deriving DecidableEq, Repr

/-- Go `error` values seen by the service: an error value produced by a
collaborator (identified by its message), or the `*strconv.NumError` of
`strconv.Atoi` (function name, offending text, kind). -/
inductive GoError where
  | external (msg : String)
  | numError (fn : String) (num : String) (kind : NumErrorKind)
  deriving DecidableEq, Repr

deriving instance DecidableEq for Except

/-- The fields of `omise.Charge` that the repository reads. -/
structure Charge where
  ID : String
  Amount : Int
  Currency : String
  Status : String
  FailureCode : String
  FailureMessage : String
  AuthorizeURI : String
  deriving DecidableEq, Repr

/-- The fields of `operations.CreateCharge` that the service sets; a field left
out of the Go literal has its zero value, the empty string. -/
structure CreateCharge where
  Amount : Int
  Currency : String
  Card : String
  Source : String
  ReturnURI : String
  deriving DecidableEq, Repr

/-- The `domain.Transaction` literal built by `ChargeCreditCard` (lines 62-68):
these five fields are the ones the service sets. -/
structure Transaction where
  ID : String
  Amount : Int
  Currency : String
  Created : Nat
  UserID : Nat
  deriving DecidableEq, Repr

/-- Modelled from the spec: `domain.User` is declared outside the service file;
the service only reads and extends its `Transactions` slice, the spec gives the
user an identifier and an ordered transaction collection. -/
structure User where
  ID : Nat
  Transactions : List Transaction
  deriving DecidableEq, Repr

/-- Gateway result of `operations.RetrieveCustomer`. -/
structure Customer where
  ID : String
  Email : String
  deriving DecidableEq, Repr

/-- Gateway result of `operations.ListCustomers`. -/
structure CustomerList where
  Data : List Customer
  deriving DecidableEq, Repr

/-- Gateway result of `operations.ListCharges`. -/
structure ChargeList where
  Data : List Charge
  deriving DecidableEq, Repr

/-- Gateway result of `operations.RetrieveTransaction` (`omise.Transaction`). -/
structure GatewayTransaction where
  ID : String
  Amount : Int
  Currency : String
  deriving DecidableEq, Repr

/-- The request descriptions handed to `client.Do` by the modelled operations. -/
inductive Operation where
  | CreateCharge (op : CreateCharge)
  | ListCustomers
  | RetrieveCharge (ChargeID : String)
  | ListCharges
  | RetrieveTransaction (TransactionID : String)
  | RetrieveCustomer (CustomerID : String)
  deriving DecidableEq, Repr

/-- One collaborator call, as recorded in the trace. -/
inductive Event where
  | Do (op : Operation)
  | GetUserByID (id : String)
  | CreateTransaction (t : Transaction)
  | UpdateUser (id : String) (u : User)
  deriving DecidableEq, Repr

/-- The state the service runs against: the gateway's state, the ledger store's
state (users and transactions), the wall clock read by `time.Now()`, and the
trace of collaborator calls made so far (oldest first). -/
structure World (γ δ : Type) where
  gateway : γ
  ledger : δ
  clock : Nat
  trace : List Event

/-- Behaviour of the collaborators.  `Getenv` is `os.Getenv`, `NewClient` is
`omise.NewClient` (`none` is success), the next six fields are `client.Do` at
each request type, acting on the gateway state, and the last three are the
methods of `ports.UserRepository` and `ports.TransactionRepository`, acting on
the ledger state. -/
structure Ports (γ δ : Type) where
  Getenv : String → String
  NewClient : String → String → Option GoError
  CreateCharge : CreateCharge → γ → Except GoError Charge × γ
  ListCustomers : γ → Except GoError CustomerList × γ
  RetrieveCharge : String → γ → Except GoError Charge × γ
  ListCharges : γ → Except GoError ChargeList × γ
  RetrieveTransaction : String → γ → Except GoError GatewayTransaction × γ
  RetrieveCustomer : String → γ → Except GoError Customer × γ
  GetUserByID : String → δ → Except GoError User × δ
  CreateTransaction : Transaction → δ → Except GoError Transaction × δ
  UpdateUser : String → User → δ → Except GoError User × δ

/-! ## Library functions used by the service -/

/-- Value of an ASCII decimal digit, `none` for any other character. -/
def digitVal (c : Char) : Option Nat :=
  if 48 ≤ c.toNat ∧ c.toNat ≤ 57 then some (c.toNat - 48) else none

/-- The digit loop of `strconv.ParseUint` in base 10 at 64 bits: a byte that is
not a digit is a syntax error, a value that leaves `uint64` a range error,
whichever comes first. -/
def parseUint : List Char → Nat → Except NumErrorKind Nat
  | [], n => .ok n
  | c :: cs, n =>
    match digitVal c with
    | none => .error .invalid
    | some d => if n * 10 + d < 2 ^ 64 then parseUint cs (n * 10 + d) else .error .range

/-- Go `strconv.Atoi` on a 64-bit platform: an optional sign, then at least
one decimal digit and nothing else; the value has to fit `int64`.  (The fast
path of `Atoi` for short texts computes the same result.) -/
def Atoi (s : String) : Except GoError Int :=
  let signed : Bool × List Char :=
    match s.data with
    | '-' :: rest => (true, rest)
    | '+' :: rest => (false, rest)
    | cs => (false, cs)
  match signed.2 with
  | [] => .error (.numError "Atoi" s .invalid)
  | ds =>
    match parseUint ds 0 with
    | .error kind => .error (.numError "Atoi" s kind)
    | .ok n =>
      if signed.1 then
        if n ≤ 2 ^ 63 then .ok (-(n : Int)) else .error (.numError "Atoi" s .range)
      else
        if n < 2 ^ 63 then .ok (n : Int) else .error (.numError "Atoi" s .range)

/-- Go conversion `uint(id)` of an `int` on a 64-bit platform. -/
def uint (i : Int) : Nat := (i % 2 ^ 64).toNat

/-! ## Collaborator calls, recorded in the trace -/

variable {γ δ : Type}

/-- The call `client.Do(result, op)`: the gateway answers and moves to its next
state, the request is appended to the trace. -/
def ClientDo {α : Type} (answer : γ → Except GoError α × γ) (op : Operation)
    (w : World γ δ) : Except GoError α × World γ δ :=
  ((answer w.gateway).1,
    { w with gateway := (answer w.gateway).2, trace := w.trace ++ [Event.Do op] })

/-- The call `s.userRepo.GetUserByID(userID)`. -/
def GetUserByID (P : Ports γ δ) (userID : String) (w : World γ δ) :
    Except GoError User × World γ δ :=
  ((P.GetUserByID userID w.ledger).1,
    { w with ledger := (P.GetUserByID userID w.ledger).2,
             trace := w.trace ++ [Event.GetUserByID userID] })

/-- The call `s.transactionRepo.CreateTransaction(&newTransaction)`. -/
def CreateTransaction (P : Ports γ δ) (t : Transaction) (w : World γ δ) :
    Except GoError Transaction × World γ δ :=
  ((P.CreateTransaction t w.ledger).1,
    { w with ledger := (P.CreateTransaction t w.ledger).2,
             trace := w.trace ++ [Event.CreateTransaction t] })

/-- The call `s.userRepo.UpdateUser(userID, user)`. -/
def UpdateUser (P : Ports γ δ) (userID : String) (u : User) (w : World γ δ) :
    Except GoError User × World γ δ :=
  ((P.UpdateUser userID u w.ledger).1,
    { w with ledger := (P.UpdateUser userID u w.ledger).2,
             trace := w.trace ++ [Event.UpdateUser userID u] })

/-! ## The service (`internal/core/services/omise.go`) -/

/-- `NewOmiseClient` (lines 28-36): reads the two keys from the environment and
builds the client; `.ok ()` stands for the client. -/
def NewOmiseClient (P : Ports γ δ) : Except GoError Unit :=
  match P.NewClient (P.Getenv "OMISE_PUBLIC_KEY") (P.Getenv "OMISE_SECRET_KEY") with
  | some e => .error e
  | none => .ok ()

/-- The `operations.CreateCharge` literal of `ChargeCreditCard` (lines 45-49). -/
def cardCharge (amount : Int) (token : String) : CreateCharge :=
  { Amount := amount, Currency := "thb", Card := token, Source := "", ReturnURI := "" }

/-- The `operations.CreateCharge` literal of `ChargeBanking` (lines 91-96). -/
def bankCharge (amount : Int) (source : String) : CreateCharge :=
  { Amount := amount, Currency := "thb", Card := "", Source := source,
    ReturnURI := "https://example.com/orders/345678/complete" }

/-- `OmiseService.ChargeCreditCard` (lines 39-82). -/
def ChargeCreditCard (P : Ports γ δ) (amount : Int) (token userID : String)
    (w : World γ δ) : Except GoError Charge × World γ δ :=
  match NewOmiseClient P with
  | .error e => (.error e, w)
  | .ok () =>
    let createCharge : CreateCharge := cardCharge amount token
    match ClientDo (P.CreateCharge createCharge) (.CreateCharge createCharge) w with
    | (.error e, w1) => (.error e, w1)
    | (.ok charge, w1) =>
      match GetUserByID P userID w1 with
      | (.error err, w2) => (.error err, w2)
      | (.ok existingUser, w2) =>
        match Atoi userID with
        | .error err => (.error err, w2)
        | .ok id =>
          let newTransaction : Transaction :=
            { ID := charge.ID, Amount := charge.Amount, Currency := charge.Currency,
              Created := w2.clock, UserID := uint id }
          match CreateTransaction P newTransaction w2 with
          | (.error err, w3) => (.error err, w3)
          | (.ok transaction, w3) =>
            let updated : User :=
              { existingUser with Transactions := existingUser.Transactions ++ [transaction] }
            match UpdateUser P userID updated w3 with
            | (.error err, w4) => (.error err, w4)
            | (.ok _, w4) => (.ok charge, w4)

/-- `OmiseService.ChargeBanking` (lines 85-110).  The append of line 106 is
commented out in the source, and the result of `UpdateUser` on line 108 is
discarded. -/
def ChargeBanking (P : Ports γ δ) (amount : Int) (source userID : String)
    (w : World γ δ) : Except GoError Charge × World γ δ :=
  match NewOmiseClient P with
  | .error e => (.error e, w)
  | .ok () =>
    let createCharge : CreateCharge := bankCharge amount source
    match ClientDo (P.CreateCharge createCharge) (.CreateCharge createCharge) w with
    | (.error e, w1) => (.error e, w1)
    | (.ok charge, w1) =>
      match GetUserByID P userID w1 with
      | (.error err, w2) => (.error err, w2)
      | (.ok user, w2) => (.ok charge, (UpdateUser P userID user w2).2)

/-- `OmiseService.ListCustomers` (lines 134-147). -/
def ListCustomers (P : Ports γ δ) (w : World γ δ) :
    Except GoError CustomerList × World γ δ :=
  match NewOmiseClient P with
  | .error e => (.error e, w)
  | .ok () =>
    match ClientDo P.ListCustomers .ListCustomers w with
    | (.error err, w1) => (.error err, w1)
    | (.ok result, w1) => (.ok result, w1)

/-- `OmiseService.RetrieveCharge` (lines 171-185). -/
def RetrieveCharge (P : Ports γ δ) (chargeID : String) (w : World γ δ) :
    Except GoError Charge × World γ δ :=
  match NewOmiseClient P with
  | .error e => (.error e, w)
  | .ok () =>
    match ClientDo (P.RetrieveCharge chargeID) (.RetrieveCharge chargeID) w with
    | (.error err, w1) => (.error err, w1)
    | (.ok result, w1) => (.ok result, w1)

/-- `OmiseService.GetCharges` (lines 188-202). -/
def GetCharges (P : Ports γ δ) (w : World γ δ) :
    Except GoError ChargeList × World γ δ :=
  match NewOmiseClient P with
  | .error e => (.error e, w)
  | .ok () =>
    match ClientDo P.ListCharges .ListCharges w with
    | (.error err, w1) => (.error err, w1)
    | (.ok result, w1) => (.ok result, w1)

/-- `OmiseService.GetTransaction` (lines 205-222). -/
def GetTransaction (P : Ports γ δ) (transactionID : String) (w : World γ δ) :
    Except GoError GatewayTransaction × World γ δ :=
  match NewOmiseClient P with
  | .error e => (.error e, w)
  | .ok () =>
    match ClientDo (P.RetrieveTransaction transactionID)
        (.RetrieveTransaction transactionID) w with
    | (.error err, w1) => (.error err, w1)
    | (.ok result, w1) => (.ok result, w1)

/-- `OmiseService.GetCustomer` (lines 225-242). -/
def GetCustomer (P : Ports γ δ) (customerID : String) (w : World γ δ) :
    Except GoError Customer × World γ δ :=
  match NewOmiseClient P with
  | .error e => (.error e, w)
  | .ok () =>
    match ClientDo (P.RetrieveCustomer customerID) (.RetrieveCustomer customerID) w with
    | (.error err, w1) => (.error err, w1)
    | (.ok customer, w1) => (.ok customer, w1)

/-! ## The webhook handler (`internal/adapter/handler/http/omise.go`) -/

/-- A Go run-time panic raised inside a handler. -/
inductive RuntimePanic where
  | indexOutOfRange (index : Nat) (length : Nat)
  deriving DecidableEq, Repr

/-- The HTTP response a handler produces: the status code that goes out on the
wire. -/
structure Response where
  StatusCode : Int
  deriving DecidableEq, Repr

/-- The call `c.SendStatus(status)` of the web framework: the status is set on
the response; the framework's HTTP library writes a status that was left at 0
(or is negative) as 200, any other as it is. -/
def SendStatus (status : Int) : Response :=
  { StatusCode := if status ≤ 0 then 200 else status }

/-- `OmiseHandler.HandleWebhook` (lines 144-147), for a request whose body is
the byte sequence `body`: `c.SendStatus(int(c.Body()[0]))`.  The handler holds
the service (`h`, over the collaborators) and calls nothing on it. -/
def HandleWebhook (_h : Ports γ δ) (body : List (Fin 256)) (w : World γ δ) :
    Except RuntimePanic Response × World γ δ :=
  match body with
  | [] => (.error (.indexOutOfRange 0 0), w)
  | b :: _ => (.ok (SendStatus (b.val : Int)), w)

/-! ## Observations on a trace -/

/-- The requests sent to the gateway, oldest first. -/
def gatewayRequests : List Event → List Operation
  | [] => []
  | .Do op :: rest => op :: gatewayRequests rest
  | _ :: rest => gatewayRequests rest

/-- The calls made to the user store and the transaction store, oldest first. -/
def ledgerCalls : List Event → List Event
  | [] => []
  | .Do _ :: rest => ledgerCalls rest
  | e :: rest => e :: ledgerCalls rest

/-- The calls that write to the ledger (`CreateTransaction`, `UpdateUser`). -/
def ledgerWrites : List Event → List Event
  | [] => []
  | .CreateTransaction t :: rest => .CreateTransaction t :: ledgerWrites rest
  | .UpdateUser id u :: rest => .UpdateUser id u :: ledgerWrites rest
  | _ :: rest => ledgerWrites rest

/-- The transactions handed to `CreateTransaction`, oldest first. -/
def createdTransactions : List Event → List Transaction
  | [] => []
  | .CreateTransaction t :: rest => t :: createdTransactions rest
  | _ :: rest => createdTransactions rest

/-- Number of entries of a user's transaction collection with identifier `id`. -/
def User.countID (u : User) (id : String) : Nat :=
  (u.Transactions.map Transaction.ID).count id

/-- What a pure forwarding operation `run` does with the request `op`, answered
by the gateway as `answer`: when the client cannot be constructed the
construction error is returned and the world is untouched (no request is
sent); when it can, the request is sent once, the gateway's result or error is
returned as it is, and nothing but the gateway state and the trace changes. -/
def Forwards {α : Type} (P : Ports γ δ)
    (run : World γ δ → Except GoError α × World γ δ)
    (answer : γ → Except GoError α × γ) (op : Operation) : Prop :=
  ∀ w : World γ δ,
    (∀ e, NewOmiseClient P = .error e → run w = (.error e, w)) ∧
    (NewOmiseClient P = .ok () →
      run w = ((answer w.gateway).1,
        { w with gateway := (answer w.gateway).2, trace := w.trace ++ [Event.Do op] })) ∧
    (run w).2.ledger = w.ledger ∧
    ledgerCalls (run w).2.trace = ledgerCalls w.trace

/-- An acknowledgement: a status code of the 2xx class. -/
def Response.isAck (r : Response) : Bool :=
  decide (200 ≤ r.StatusCode) && decide (r.StatusCode < 300)

/-- The world after one delivery of a webhook request with body `body`
(whatever the handler answered). -/
def deliver (h : Ports γ δ) (body : List (Fin 256)) (w : World γ δ) : World γ δ :=
  (HandleWebhook h body w).2

/-- The bytes of an ASCII text, as a request body. -/
def asciiBytes (s : String) : List (Fin 256) :=
  s.data.map fun c => Fin.ofNat c.toNat

/-! ## A reference instance of the collaborators

Used to evaluate the operations on concrete inputs. -/

/-- Modelled from the spec: the in-memory reference ledger store (the
repositories behind `ports.UserRepository` and `ports.TransactionRepository`
are outside the service file): users by identifier, and the recorded
transactions. -/
structure MemLedger where
  users : List (String × User)
  transactions : List Transaction
  deriving DecidableEq, Repr

/-- Modelled from the spec: state of a reference gateway: the charge
identifiers it will hand out next, and the charges it has created. -/
structure MemGateway where
  fresh : List String
  charges : List Charge
  deriving DecidableEq, Repr

/-- Modelled from the spec: `GetUser(id) -> User|NotFound` on the in-memory
ledger. -/
def MemLedger.getUser (id : String) (d : MemLedger) : Except GoError User × MemLedger :=
  match d.users.lookup id with
  | some u => (.ok u, d)
  | none => (.error (.external "record not found"), d)

/-- Modelled from the spec: `RecordTransaction(Transaction) -> Transaction|error`
on the in-memory ledger, an upsert keyed by the transaction identifier. -/
def MemLedger.record (t : Transaction) (d : MemLedger) :
    Except GoError Transaction × MemLedger :=
  (.ok t, { d with transactions := (d.transactions.filter fun x => x.ID != t.ID) ++ [t] })

/-- Modelled from the spec: `UpdateUser(id, User) -> User|error` on the
in-memory ledger. -/
def MemLedger.update (id : String) (u : User) (d : MemLedger) :
    Except GoError User × MemLedger :=
  (.ok u, { d with users := d.users.map fun p => if p.1 = id then (id, u) else p })

/-- Modelled from the spec: `CreateCharge(spec) -> ChargeResult|GatewayError` of
a reference gateway that accepts every charge, echoes amount and currency, and
numbers the charge with its next unused identifier; a card charge is
`successful`, a charge on a bank source is `pending` with an authorize URI. -/
def MemGateway.create (op : CreateCharge) (g : MemGateway) :
    Except GoError Charge × MemGateway :=
  match g.fresh with
  | [] => (.error (.external "gateway unavailable"), g)
  | id :: rest =>
    let c : Charge :=
      { ID := id, Amount := op.Amount, Currency := op.Currency,
        Status := if op.Source = "" then "successful" else "pending",
        FailureCode := "", FailureMessage := "",
        AuthorizeURI := if op.Source = "" then "" else "https://pay.example/authorize" }
    (.ok c, { fresh := rest, charges := g.charges ++ [c] })

/-- Modelled from the spec: `RetrieveCharge(id)` of the reference gateway. -/
def MemGateway.retrieve (id : String) (g : MemGateway) :
    Except GoError Charge × MemGateway :=
  match g.charges.find? fun c => c.ID == id with
  | some c => (.ok c, g)
  | none => (.error (.external "charge was not found"), g)

/-- The reference collaborators: keys are present in the environment,
`omise.NewClient` refuses two empty keys. -/
def memPorts : Ports MemGateway MemLedger where
  Getenv := fun name =>
    if name = "OMISE_PUBLIC_KEY" then "pkey_test_1"
    else if name = "OMISE_SECRET_KEY" then "skey_test_1" else ""
  NewClient := fun pkey skey =>
    if pkey = "" ∧ skey = "" then some (.external "invalid public or secret key") else none
  CreateCharge := MemGateway.create
  ListCustomers := fun g => (.ok { Data := [] }, g)
  RetrieveCharge := MemGateway.retrieve
  ListCharges := fun g => (.ok { Data := g.charges }, g)
  RetrieveTransaction := fun _ g => (.error (.external "transaction was not found"), g)
  RetrieveCustomer := fun _ g => (.error (.external "customer was not found"), g)
  GetUserByID := MemLedger.getUser
  CreateTransaction := MemLedger.record
  UpdateUser := MemLedger.update

/-- The reference collaborators in a process whose environment has no keys:
`omise.NewClient` fails. -/
def noKeyPorts : Ports MemGateway MemLedger :=
  { memPorts with Getenv := fun _ => "" }

/-- The reference collaborators with a gateway that cannot be reached:
`client.Do` fails on every charge request. -/
def downPorts : Ports MemGateway MemLedger :=
  { memPorts with CreateCharge := fun _ g => (.error (.external "gateway unavailable"), g) }

/-- The reference collaborators with a user store whose `UpdateUser` fails. -/
def failingUpdatePorts : Ports MemGateway MemLedger :=
  { memPorts with UpdateUser := fun _ _ d => (.error (.external "ledger write failed"), d) }

/-- A transaction the user of `world0` already holds. -/
def earlier : Transaction :=
  { ID := "chrg_test_0", Amount := 250, Currency := "thb", Created := 5, UserID := 1 }

/-- A world with one user, identifier `1`, holding one earlier transaction,
and a gateway with two unused charge identifiers. -/
def world0 : World MemGateway MemLedger where
  gateway := { fresh := ["chrg_test_1", "chrg_test_2"], charges := [] }
  ledger := { users := [("1", { ID := 1, Transactions := [earlier] })],
              transactions := [earlier] }
  clock := 10
  trace := []

/-- The world after the `client.Do` of `ChargeCreditCard` (line 51): the
gateway has answered the charge request, which is the only call made. -/
def afterCharge (P : Ports γ δ) (amount : Int) (token : String) (w : World γ δ) :
    World γ δ :=
  { gateway := (P.CreateCharge (cardCharge amount token) w.gateway).2
    ledger := w.ledger
    clock := w.clock
    trace := w.trace ++ [Event.Do (.CreateCharge (cardCharge amount token))] }

/-- The world after the `GetUserByID` of `ChargeCreditCard` (line 54): the
charge request, then the user lookup. -/
def afterLookup (P : Ports γ δ) (amount : Int) (token userID : String) (w : World γ δ) :
    World γ δ :=
  { gateway := (P.CreateCharge (cardCharge amount token) w.gateway).2
    ledger := (P.GetUserByID userID w.ledger).2
    clock := w.clock
    trace := w.trace ++ [Event.Do (.CreateCharge (cardCharge amount token)),
      Event.GetUserByID userID] }

/-- The world after the `CreateTransaction` of `ChargeCreditCard` (line 70):
the charge request, the user lookup, then the transaction of lines 62-68. -/
def afterRecord (P : Ports γ δ) (amount : Int) (token userID : String)
    (w : World γ δ) (charge : Charge) (id : Int) : World γ δ :=
  let t : Transaction :=
    { ID := charge.ID, Amount := charge.Amount, Currency := charge.Currency,
      Created := w.clock, UserID := uint id }
  { gateway := (P.CreateCharge (cardCharge amount token) w.gateway).2
    ledger := (P.CreateTransaction t (P.GetUserByID userID w.ledger).2).2
    clock := w.clock
    trace := w.trace ++ [Event.Do (.CreateCharge (cardCharge amount token)),
      Event.GetUserByID userID, Event.CreateTransaction t] }

/-- The world after the `UpdateUser` of `ChargeCreditCard` (line 77), the last
call of its body: the gateway answered, then the three ledger calls were made. -/
def cardFinalWorld (P : Ports γ δ) (amount : Int) (token userID : String)
    (w : World γ δ) (charge : Charge) (u : User) (id : Int) (tx : Transaction) :
    World γ δ :=
  let t : Transaction :=
    { ID := charge.ID, Amount := charge.Amount, Currency := charge.Currency,
      Created := w.clock, UserID := uint id }
  let d1 := (P.GetUserByID userID w.ledger).2
  let d2 := (P.CreateTransaction t d1).2
  let updated : User := { u with Transactions := u.Transactions ++ [tx] }
  { gateway := (P.CreateCharge (cardCharge amount token) w.gateway).2
    ledger := (P.UpdateUser userID updated d2).2
    clock := w.clock
    trace := w.trace ++ [Event.Do (.CreateCharge (cardCharge amount token)),
      Event.GetUserByID userID, Event.CreateTransaction t, Event.UpdateUser userID updated] }

/-- The charge the reference gateway returns for the first card charge of
amount `1000` in `world0`. -/
def charge1000 : Charge :=
  { ID := "chrg_test_1", Amount := 1000, Currency := "thb", Status := "successful",
    FailureCode := "", FailureMessage := "", AuthorizeURI := "" }

/-- A webhook payload as the gateway sends it: a JSON object. -/
def chargeCompleteEvent : List (Fin 256) :=
  asciiBytes "\x7b\"id\":\"evnt_test_1\",\"key\":\"charge.complete\"\x7d"

/-! ## Shared lemmas -/

theorem gatewayRequests_append (xs ys : List Event) :
    gatewayRequests (xs ++ ys) = gatewayRequests xs ++ gatewayRequests ys := by
  induction xs with
  | nil => rfl
  | cons e rest ih => cases e <;> simp [gatewayRequests, ih]

theorem ledgerCalls_append (xs ys : List Event) :
    ledgerCalls (xs ++ ys) = ledgerCalls xs ++ ledgerCalls ys := by
  induction xs with
  | nil => rfl
  | cons e rest ih => cases e <;> simp [ledgerCalls, ih]

theorem ledgerWrites_append (xs ys : List Event) :
    ledgerWrites (xs ++ ys) = ledgerWrites xs ++ ledgerWrites ys := by
  induction xs with
  | nil => rfl
  | cons e rest ih => cases e <;> simp [ledgerWrites, ih]

theorem createdTransactions_append (xs ys : List Event) :
    createdTransactions (xs ++ ys) = createdTransactions xs ++ createdTransactions ys := by
  induction xs with
  | nil => rfl
  | cons e rest ih => cases e <;> simp [createdTransactions, ih]

/-- Inversion of a successful `ChargeCreditCard`: every step of the body
succeeded, and the final world is `cardFinalWorld`. -/
theorem ChargeCreditCard_ok_inv (P : Ports γ δ) (amount : Int) (token userID : String)
    (w : World γ δ) (charge : Charge)
    (h : (ChargeCreditCard P amount token userID w).1 = .ok charge) :
    NewOmiseClient P = .ok () ∧
    (P.CreateCharge (cardCharge amount token) w.gateway).1 = .ok charge ∧
    ∃ u id tx,
      (P.GetUserByID userID w.ledger).1 = .ok u ∧
      Atoi userID = .ok id ∧
      (P.CreateTransaction
          { ID := charge.ID, Amount := charge.Amount, Currency := charge.Currency,
            Created := w.clock, UserID := uint id }
          (P.GetUserByID userID w.ledger).2).1 = .ok tx ∧
      (ChargeCreditCard P amount token userID w).2
        = cardFinalWorld P amount token userID w charge u id tx ∧
      ∃ r, (P.UpdateUser userID { u with Transactions := u.Transactions ++ [tx] }
        (P.CreateTransaction
          { ID := charge.ID, Amount := charge.Amount, Currency := charge.Currency,
            Created := w.clock, UserID := uint id }
          (P.GetUserByID userID w.ledger).2).2).1 = .ok r := by
  unfold ChargeCreditCard at h ⊢
  cases hc : NewOmiseClient P with
  | error e => simp [hc] at h
  | ok u0 =>
    cases u0
    simp only [hc, ClientDo] at h ⊢
    cases hg : (P.CreateCharge (cardCharge amount token) w.gateway).1 with
    | error e => simp [hg] at h
    | ok c =>
      simp only [hg, GetUserByID] at h ⊢
      cases hu : (P.GetUserByID userID w.ledger).1 with
      | error e => simp [hu] at h
      | ok u =>
        simp only [hu] at h ⊢
        cases ha : Atoi userID with
        | error e => simp [ha] at h
        | ok id =>
          simp only [ha, CreateTransaction] at h ⊢
          cases ht : (P.CreateTransaction
              { ID := c.ID, Amount := c.Amount, Currency := c.Currency,
                Created := w.clock, UserID := uint id }
              (P.GetUserByID userID w.ledger).2).1 with
          | error e => simp [ht] at h
          | ok tx =>
            simp only [ht, UpdateUser] at h ⊢
            cases hp : (P.UpdateUser userID { ID := u.ID, Transactions := u.Transactions ++ [tx] }
                (P.CreateTransaction
                  { ID := c.ID, Amount := c.Amount, Currency := c.Currency,
                    Created := w.clock, UserID := uint id }
                  (P.GetUserByID userID w.ledger).2).2).1 with
            | error e => simp [hp] at h
            | ok r =>
              simp only [hp] at h ⊢
              have hcc : c = charge := by
                injection h
              subst hcc
              refine ⟨trivial, rfl, u, id, tx, rfl, rfl, ht, ?_, r, hp⟩
              simp [cardFinalWorld]

/-- Whenever the client is constructed, `ChargeCreditCard` sends exactly one
request to the gateway, the charge creation, on every path. -/
theorem ChargeCreditCard_requests (P : Ports γ δ) (amount : Int) (token userID : String)
    (w : World γ δ) (hc : NewOmiseClient P = .ok ()) :
    gatewayRequests (ChargeCreditCard P amount token userID w).2.trace
      = gatewayRequests w.trace ++ [.CreateCharge (cardCharge amount token)] := by
  unfold ChargeCreditCard
  simp only [hc, ClientDo, GetUserByID, CreateTransaction, UpdateUser]
  repeat' split
  all_goals simp only [Prod.mk.injEq] at *
  all_goals try casesm* _ ∧ _
  all_goals subst_vars
  all_goals simp [gatewayRequests_append, gatewayRequests]

/-! ## C1: validation and the gateway call -/

/-- C1, the claim as stated fails: for a user identifier that resolves to no
user (`999`), `ChargeCreditCard` fails only after the charge-creation request
has been sent to the gateway; and for an amount that is not positive (`0`) with
an accepting gateway the request is sent and the operation succeeds. -/
theorem ChargeCreditCard_contacts_gateway_before_validating :
    (memPorts.GetUserByID "999" world0.ledger).1 = .error (.external "record not found") ∧
    (ChargeCreditCard memPorts 1000 "tokn_test_1" "999" world0).1
      = .error (.external "record not found") ∧
    gatewayRequests (ChargeCreditCard memPorts 1000 "tokn_test_1" "999" world0).2.trace
      = [.CreateCharge (cardCharge 1000 "tokn_test_1")] ∧
    (0 : Int) ≤ 0 ∧
    (ChargeCreditCard memPorts 0 "tokn_test_1" "1" world0).1
      = .ok { ID := "chrg_test_1", Amount := 0, Currency := "thb", Status := "successful",
              FailureCode := "", FailureMessage := "", AuthorizeURI := "" } ∧
    gatewayRequests (ChargeCreditCard memPorts 0 "tokn_test_1" "1" world0).2.trace
      = [.CreateCharge (cardCharge 0 "tokn_test_1")] := by
  decide

/-- C1, amended: `ChargeCreditCard` does not validate before it contacts the
gateway, and never checks the amount.  Its outcome is decided, for every
amount (whatever its sign), by the collaborators' answers and `Atoi(userID)`
alone, in this order: client construction; then the charge-creation request,
carrying the amount unchanged, currency `thb` and the token; then the user
lookup; then `Atoi`; then `CreateTransaction`; then `UpdateUser`; the first
step that fails returns its error, and when none fails the charge is
returned.  So whenever the client is constructed the charge-creation request
is the first collaborator call and the only gateway request; and when `userID`
resolves to no user, the operation fails with an error, no transaction is
created and no user is updated - after the charge has been requested. -/
theorem ChargeCreditCard_validates_after_gateway (P : Ports γ δ) (amount : Int)
    (token userID : String) (w : World γ δ) :
    (∀ e, NewOmiseClient P = .error e →
      ChargeCreditCard P amount token userID w = (.error e, w)) ∧
    (NewOmiseClient P = .ok () →
      (∃ rest, (ChargeCreditCard P amount token userID w).2.trace
          = w.trace ++ Event.Do (.CreateCharge (cardCharge amount token)) :: rest ∧
        gatewayRequests rest = []) ∧
      (∀ e, (P.CreateCharge (cardCharge amount token) w.gateway).1 = .error e →
        ChargeCreditCard P amount token userID w = (.error e, afterCharge P amount token w)) ∧
      (∀ charge, (P.CreateCharge (cardCharge amount token) w.gateway).1 = .ok charge →
        (∀ e, (P.GetUserByID userID w.ledger).1 = .error e →
          ChargeCreditCard P amount token userID w
            = (.error e, afterLookup P amount token userID w)) ∧
        (∀ u, (P.GetUserByID userID w.ledger).1 = .ok u →
          (∀ e, Atoi userID = .error e →
            ChargeCreditCard P amount token userID w
              = (.error e, afterLookup P amount token userID w)) ∧
          (∀ id, Atoi userID = .ok id →
            (∀ e, (P.CreateTransaction
                { ID := charge.ID, Amount := charge.Amount, Currency := charge.Currency,
                  Created := w.clock, UserID := uint id }
                (P.GetUserByID userID w.ledger).2).1 = .error e →
              ChargeCreditCard P amount token userID w
                = (.error e, afterRecord P amount token userID w charge id)) ∧
            (∀ tx, (P.CreateTransaction
                { ID := charge.ID, Amount := charge.Amount, Currency := charge.Currency,
                  Created := w.clock, UserID := uint id }
                (P.GetUserByID userID w.ledger).2).1 = .ok tx →
              (∀ e, (P.UpdateUser userID { u with Transactions := u.Transactions ++ [tx] }
                  (P.CreateTransaction
                    { ID := charge.ID, Amount := charge.Amount, Currency := charge.Currency,
                      Created := w.clock, UserID := uint id }
                    (P.GetUserByID userID w.ledger).2).2).1 = .error e →
                ChargeCreditCard P amount token userID w
                  = (.error e, cardFinalWorld P amount token userID w charge u id tx)) ∧
              (∀ r, (P.UpdateUser userID { u with Transactions := u.Transactions ++ [tx] }
                  (P.CreateTransaction
                    { ID := charge.ID, Amount := charge.Amount, Currency := charge.Currency,
                      Created := w.clock, UserID := uint id }
                    (P.GetUserByID userID w.ledger).2).2).1 = .ok r →
                ChargeCreditCard P amount token userID w
                  = (.ok charge, cardFinalWorld P amount token userID w charge u id tx))))))) ∧
    ((∃ e, (P.GetUserByID userID w.ledger).1 = .error e) →
      (∃ e, (ChargeCreditCard P amount token userID w).1 = .error e) ∧
      ledgerWrites (ChargeCreditCard P amount token userID w).2.trace
        = ledgerWrites w.trace) := by
  refine ⟨?_, ?_, ?_⟩
  · intro e hc
    simp [ChargeCreditCard, hc]
  · intro hc
    refine ⟨?_, ?_, ?_⟩
    · unfold ChargeCreditCard
      simp only [hc, ClientDo, GetUserByID, CreateTransaction, UpdateUser]
      repeat' split
      all_goals simp only [Prod.mk.injEq] at *
      all_goals try casesm* _ ∧ _
      all_goals subst_vars
      all_goals simp [gatewayRequests]
    · intro e hg
      simp [ChargeCreditCard, hc, ClientDo, hg, afterCharge]
    · intro charge hg
      refine ⟨?_, ?_⟩
      · intro e hu
        simp [ChargeCreditCard, hc, ClientDo, hg, GetUserByID, hu, afterLookup]
      · intro u hu
        refine ⟨?_, ?_⟩
        · intro e ha
          simp [ChargeCreditCard, hc, ClientDo, hg, GetUserByID, hu, ha, afterLookup]
        · intro id ha
          refine ⟨?_, ?_⟩
          · intro e ht
            simp [ChargeCreditCard, hc, ClientDo, hg, GetUserByID, hu, ha, CreateTransaction,
              ht, afterRecord]
          · intro tx ht
            refine ⟨?_, ?_⟩
            · intro e hp
              simp [ChargeCreditCard, hc, ClientDo, hg, GetUserByID, hu, ha,
                CreateTransaction, ht, UpdateUser, hp, cardFinalWorld]
            · intro r hp
              simp [ChargeCreditCard, hc, ClientDo, hg, GetUserByID, hu, ha,
                CreateTransaction, ht, UpdateUser, hp, cardFinalWorld]
  · rintro ⟨e, he⟩
    unfold ChargeCreditCard
    simp only [ClientDo, GetUserByID, CreateTransaction, UpdateUser]
    repeat' split
    all_goals simp only [Prod.mk.injEq] at *
    all_goals try casesm* _ ∧ _
    all_goals subst_vars
    all_goals simp_all [ledgerWrites_append, ledgerWrites]

/-- C1, amended, at concrete inputs: with amount `0` and the unknown user `999`
the charge request is sent, then the lookup fails and nothing is written; with
the amount `-5` and the existing user `1` nothing refuses the amount and the
operation succeeds. -/
theorem ChargeCreditCard_validates_after_gateway_witness :
    (ChargeCreditCard memPorts 0 "tokn_test_1" "999" world0
        = (.error (.external "record not found"),
            afterLookup memPorts 0 "tokn_test_1" "999" world0) ∧
      (afterLookup memPorts 0 "tokn_test_1" "999" world0).trace
        = [Event.Do (.CreateCharge (cardCharge 0 "tokn_test_1")), Event.GetUserByID "999"]) ∧
    ((∃ e, (ChargeCreditCard memPorts 0 "tokn_test_1" "999" world0).1 = .error e) ∧
      ledgerWrites (ChargeCreditCard memPorts 0 "tokn_test_1" "999" world0).2.trace
        = ledgerWrites world0.trace) ∧
    ChargeCreditCard memPorts (-5) "tokn_test_1" "1" world0
      = (.ok { charge1000 with Amount := -5 },
          cardFinalWorld memPorts (-5) "tokn_test_1" "1" world0
            { charge1000 with Amount := -5 } { ID := 1, Transactions := [earlier] } 1
            { ID := "chrg_test_1", Amount := -5, Currency := "thb", Created := 10,
              UserID := 1 }) :=
  ⟨⟨(((ChargeCreditCard_validates_after_gateway memPorts 0 "tokn_test_1" "999" world0).2.1
        (by decide)).2.2 { charge1000 with Amount := 0 } (by decide)).1
        (.external "record not found") (by decide),
     by decide⟩,
   (ChargeCreditCard_validates_after_gateway memPorts 0 "tokn_test_1" "999" world0).2.2
      ⟨.external "record not found", by decide⟩,
   ((((((ChargeCreditCard_validates_after_gateway memPorts (-5) "tokn_test_1" "1" world0).2.1
        (by decide)).2.2 { charge1000 with Amount := -5 } (by decide)).2
        { ID := 1, Transactions := [earlier] } (by decide)).2 1 (by decide)).2
        { ID := "chrg_test_1", Amount := -5, Currency := "thb", Created := 10, UserID := 1 }
        (by decide)).2
        { ID := 1, Transactions := [earlier,
            { ID := "chrg_test_1", Amount := -5, Currency := "thb", Created := 10,
              UserID := 1 }] }
        (by decide)⟩

/-! ## C3: a failed gateway call leaves the ledger alone -/

/-- C3: when the gateway call of `ChargeCreditCard` or of `ChargeBanking` fails
with error `e`, either at client construction or at `client.Do`, the operation
returns `e`, the ledger state is unchanged and no call at all was made to the
user store or the transaction store (so no transaction was created and no user
updated). -/
theorem gateway_failure_leaves_ledger_unchanged (P : Ports γ δ) (amount : Int)
    (token source userID : String) (w : World γ δ) (e : GoError) :
    ((NewOmiseClient P = .error e ∨
        (NewOmiseClient P = .ok () ∧
          (P.CreateCharge (cardCharge amount token) w.gateway).1 = .error e)) →
      (ChargeCreditCard P amount token userID w).1 = .error e ∧
      (ChargeCreditCard P amount token userID w).2.ledger = w.ledger ∧
      ledgerCalls (ChargeCreditCard P amount token userID w).2.trace = ledgerCalls w.trace) ∧
    ((NewOmiseClient P = .error e ∨
        (NewOmiseClient P = .ok () ∧
          (P.CreateCharge (bankCharge amount source) w.gateway).1 = .error e)) →
      (ChargeBanking P amount source userID w).1 = .error e ∧
      (ChargeBanking P amount source userID w).2.ledger = w.ledger ∧
      ledgerCalls (ChargeBanking P amount source userID w).2.trace = ledgerCalls w.trace) := by
  constructor
  · rintro (hc | ⟨hc, hd⟩)
    · simp [ChargeCreditCard, hc]
    · unfold ChargeCreditCard
      simp only [hc, ClientDo]
      split
      · simp_all [ledgerCalls_append, ledgerCalls]
        casesm* _ ∧ _
        subst_vars
        simp [ledgerCalls_append, ledgerCalls]
      · simp_all
  · rintro (hc | ⟨hc, hd⟩)
    · simp [ChargeBanking, hc]
    · unfold ChargeBanking
      simp only [hc, ClientDo]
      split
      · simp_all [ledgerCalls_append, ledgerCalls]
        casesm* _ ∧ _
        subst_vars
        simp [ledgerCalls_append, ledgerCalls]
      · simp_all

/-- C3 at concrete inputs: a process without keys (client construction fails)
for the card charge, an unreachable gateway (`client.Do` fails) for the bank
charge. -/
theorem gateway_failure_leaves_ledger_unchanged_witness :
    ((ChargeCreditCard noKeyPorts 1000 "tokn_test_1" "1" world0).1
        = .error (.external "invalid public or secret key") ∧
      (ChargeCreditCard noKeyPorts 1000 "tokn_test_1" "1" world0).2.ledger = world0.ledger ∧
      ledgerCalls (ChargeCreditCard noKeyPorts 1000 "tokn_test_1" "1" world0).2.trace
        = ledgerCalls world0.trace) ∧
    ((ChargeBanking downPorts 5000 "src_test_1" "1" world0).1
        = .error (.external "gateway unavailable") ∧
      (ChargeBanking downPorts 5000 "src_test_1" "1" world0).2.ledger = world0.ledger ∧
      ledgerCalls (ChargeBanking downPorts 5000 "src_test_1" "1" world0).2.trace
        = ledgerCalls world0.trace) :=
  ⟨(gateway_failure_leaves_ledger_unchanged noKeyPorts 1000 "tokn_test_1" "src_test_1" "1"
      world0 (.external "invalid public or secret key")).1 (Or.inl (by decide)),
   (gateway_failure_leaves_ledger_unchanged downPorts 5000 "tokn_test_1" "src_test_1" "1"
      world0 (.external "gateway unavailable")).2 (Or.inr ⟨by decide, by decide⟩)⟩

/-! ## C2: submitting the same card charge twice -/

/-- C2, the claim as stated fails: the same request `(1000, tokn_test_1, 1)`
submitted twice in sequence sends two charge-creation requests, the second call
returns a different charge (`chrg_test_2`) from the first (`chrg_test_1`), the
ledger holds two transaction records for the request and the user's collection
two entries for it. -/
theorem ChargeCreditCard_twice_charges_twice :
    (ChargeCreditCard memPorts 1000 "tokn_test_1" "1" world0).1
      = .ok { ID := "chrg_test_1", Amount := 1000, Currency := "thb", Status := "successful",
              FailureCode := "", FailureMessage := "", AuthorizeURI := "" } ∧
    (ChargeCreditCard memPorts 1000 "tokn_test_1" "1"
        (ChargeCreditCard memPorts 1000 "tokn_test_1" "1" world0).2).1
      = .ok { ID := "chrg_test_2", Amount := 1000, Currency := "thb", Status := "successful",
              FailureCode := "", FailureMessage := "", AuthorizeURI := "" } ∧
    gatewayRequests (ChargeCreditCard memPorts 1000 "tokn_test_1" "1"
        (ChargeCreditCard memPorts 1000 "tokn_test_1" "1" world0).2).2.trace
      = [.CreateCharge (cardCharge 1000 "tokn_test_1"),
         .CreateCharge (cardCharge 1000 "tokn_test_1")] ∧
    (ChargeCreditCard memPorts 1000 "tokn_test_1" "1"
        (ChargeCreditCard memPorts 1000 "tokn_test_1" "1" world0).2).2.ledger.transactions
      = [earlier,
         { ID := "chrg_test_1", Amount := 1000, Currency := "thb", Created := 10, UserID := 1 },
         { ID := "chrg_test_2", Amount := 1000, Currency := "thb", Created := 10, UserID := 1 }] ∧
    (ChargeCreditCard memPorts 1000 "tokn_test_1" "1"
        (ChargeCreditCard memPorts 1000 "tokn_test_1" "1" world0).2).2.ledger.users
      = [("1", { ID := 1, Transactions :=
          [earlier,
           { ID := "chrg_test_1", Amount := 1000, Currency := "thb", Created := 10, UserID := 1 },
           { ID := "chrg_test_2", Amount := 1000, Currency := "thb", Created := 10,
             UserID := 1 }] })] := by
  decide

/-- C2, amended: the service keeps no idempotency key.  After a successful
`ChargeCreditCard`, submitting the same request again sends a second
charge-creation request to the gateway; when the second call succeeds too, it
returns the gateway's answer to that second request, and the two calls have
made two `CreateTransaction` calls, for the first and for the second charge
identifier, and two `UpdateUser` calls. -/
theorem ChargeCreditCard_resubmission_charges_again (P : Ports γ δ) (amount : Int)
    (token userID : String) (w : World γ δ) (c1 : Charge)
    (h1 : (ChargeCreditCard P amount token userID w).1 = .ok c1) :
    gatewayRequests (ChargeCreditCard P amount token userID
        (ChargeCreditCard P amount token userID w).2).2.trace
      = gatewayRequests w.trace ++ [.CreateCharge (cardCharge amount token),
          .CreateCharge (cardCharge amount token)] ∧
    ∀ c2, (ChargeCreditCard P amount token userID
        (ChargeCreditCard P amount token userID w).2).1 = .ok c2 →
      (P.CreateCharge (cardCharge amount token)
        (ChargeCreditCard P amount token userID w).2.gateway).1 = .ok c2 ∧
      ∃ t1 u1 t2 u2,
        t1.ID = c1.ID ∧ t2.ID = c2.ID ∧
        ledgerWrites (ChargeCreditCard P amount token userID
            (ChargeCreditCard P amount token userID w).2).2.trace
          = ledgerWrites w.trace ++ [.CreateTransaction t1, .UpdateUser userID u1,
              .CreateTransaction t2, .UpdateUser userID u2] := by
  obtain ⟨hc, -, u, id, tx, -, -, -, hw1, -⟩ :=
    ChargeCreditCard_ok_inv P amount token userID w c1 h1
  constructor
  · rw [ChargeCreditCard_requests P amount token userID _ hc,
      ChargeCreditCard_requests P amount token userID _ hc]
    simp
  · intro c2 h2
    obtain ⟨-, hg2, u', id', tx', -, -, -, hw2, -⟩ :=
      ChargeCreditCard_ok_inv P amount token userID _ c2 h2
    refine ⟨hg2, ⟨c1.ID, c1.Amount, c1.Currency, w.clock, uint id⟩,
      { u with Transactions := u.Transactions ++ [tx] },
      ⟨c2.ID, c2.Amount, c2.Currency, w.clock, uint id'⟩,
      { u' with Transactions := u'.Transactions ++ [tx'] }, rfl, rfl, ?_⟩
    rw [hw2, hw1]
    simp [cardFinalWorld, ledgerWrites_append, ledgerWrites]

/-- C2, amended, at the concrete request `(1000, tokn_test_1, 1)`: two
requests are sent, and the second call returns the second charge. -/
theorem ChargeCreditCard_resubmission_charges_again_witness :
    (ChargeCreditCard memPorts 1000 "tokn_test_1" "1" world0).1 = .ok charge1000 ∧
    gatewayRequests (ChargeCreditCard memPorts 1000 "tokn_test_1" "1"
        (ChargeCreditCard memPorts 1000 "tokn_test_1" "1" world0).2).2.trace
      = gatewayRequests world0.trace ++ [.CreateCharge (cardCharge 1000 "tokn_test_1"),
          .CreateCharge (cardCharge 1000 "tokn_test_1")] ∧
    (memPorts.CreateCharge (cardCharge 1000 "tokn_test_1")
        (ChargeCreditCard memPorts 1000 "tokn_test_1" "1" world0).2.gateway).1
      = .ok { charge1000 with ID := "chrg_test_2" } :=
  ⟨by decide,
   (ChargeCreditCard_resubmission_charges_again memPorts 1000 "tokn_test_1" "1" world0
      charge1000 (by decide)).1,
   ((ChargeCreditCard_resubmission_charges_again memPorts 1000 "tokn_test_1" "1" world0
      charge1000 (by decide)).2 { charge1000 with ID := "chrg_test_2" } (by decide)).1⟩

/-! ## C4: the successful card charge -/

/-- Conversion `uint(id)` keeps a value that is not negative (and below
`2 ^ 63`, as every result of `Atoi` is). -/
theorem uint_of_nonneg (i : Int) (h0 : 0 ≤ i) (h1 : i < 2 ^ 64) : (uint i : Int) = i := by
  unfold uint
  rw [Int.emod_eq_of_lt h0 h1]
  exact Int.toNat_of_nonneg h0

/-- Every result of `Atoi` fits `int64`. -/
theorem Atoi_range (s : String) (id : Int) (h : Atoi s = .ok id) :
    -(2 ^ 63) ≤ id ∧ id < 2 ^ 63 := by
  unfold Atoi at h
  simp only at h
  repeat' split at h
  all_goals cases h
  all_goals constructor <;> omega

/-- C4: for a successful `ChargeCreditCard(amount, token, userID)` against a
gateway that echoes the requested amount and currency, under a charge
identifier that none of the user's transactions has, and a transaction store
that returns the record it stored under the identifier it was given: the
returned charge has the requested amount and currency `thb`; `userID` is
numeric; `CreateTransaction` was called, and succeeded, with the charge's
identifier, that amount, currency `thb` and the user's number; `UpdateUser`
was called, and succeeded, with the user read, to whose transactions the
stored transaction is appended after all those held before, and who contains
the charge identifier exactly once; the calls made are exactly these four, and
the ledger left behind is the one `UpdateUser` produced from the one
`CreateTransaction` produced. -/
theorem ChargeCreditCard_roundtrip (P : Ports γ δ) (amount : Int) (token userID : String)
    (w : World γ δ) (charge : Charge)
    (hok : (ChargeCreditCard P amount token userID w).1 = .ok charge)
    (hecho : ∀ c, (P.CreateCharge (cardCharge amount token) w.gateway).1 = .ok c →
      c.Amount = amount ∧ c.Currency = "thb")
    (hfresh : ∀ u, (P.GetUserByID userID w.ledger).1 = .ok u →
      ∀ t ∈ u.Transactions, t.ID ≠ charge.ID)
    (hstore : ∀ t d r, (P.CreateTransaction t d).1 = .ok r → r.ID = t.ID) :
    charge.Amount = amount ∧ charge.Currency = "thb" ∧
    (P.CreateCharge (cardCharge amount token) w.gateway).1 = .ok charge ∧
    ∃ u id tx r,
      (P.GetUserByID userID w.ledger).1 = .ok u ∧
      Atoi userID = .ok id ∧
      (0 ≤ id → (uint id : Int) = id) ∧
      (P.CreateTransaction
          { ID := charge.ID, Amount := amount, Currency := "thb",
            Created := w.clock, UserID := uint id }
          (P.GetUserByID userID w.ledger).2).1 = .ok tx ∧
      tx.ID = charge.ID ∧
      (P.UpdateUser userID { u with Transactions := u.Transactions ++ [tx] }
          (P.CreateTransaction
            { ID := charge.ID, Amount := amount, Currency := "thb",
              Created := w.clock, UserID := uint id }
            (P.GetUserByID userID w.ledger).2).2).1 = .ok r ∧
      (ChargeCreditCard P amount token userID w).2.trace
        = w.trace ++ [Event.Do (.CreateCharge (cardCharge amount token)),
            Event.GetUserByID userID,
            Event.CreateTransaction
              { ID := charge.ID, Amount := amount, Currency := "thb",
                Created := w.clock, UserID := uint id },
            Event.UpdateUser userID { u with Transactions := u.Transactions ++ [tx] }] ∧
      (ChargeCreditCard P amount token userID w).2.ledger
        = (P.UpdateUser userID { u with Transactions := u.Transactions ++ [tx] }
            (P.CreateTransaction
              { ID := charge.ID, Amount := amount, Currency := "thb",
                Created := w.clock, UserID := uint id }
              (P.GetUserByID userID w.ledger).2).2).2 ∧
      (ChargeCreditCard P amount token userID w).2.gateway
        = (P.CreateCharge (cardCharge amount token) w.gateway).2 ∧
      User.countID { u with Transactions := u.Transactions ++ [tx] } charge.ID = 1 := by
  obtain ⟨-, hg, u, id, tx, hu, ha, ht, hw, r, hr⟩ :=
    ChargeCreditCard_ok_inv P amount token userID w charge hok
  obtain ⟨hamt, hcur⟩ := hecho charge hg
  have hid : tx.ID = charge.ID := hstore _ _ _ ht
  rw [hamt, hcur] at ht hr
  refine ⟨hamt, hcur, hg, u, id, tx, r, hu, ha, ?_, ht, hid, hr, ?_, ?_, ?_, ?_⟩
  · intro h0
    apply uint_of_nonneg id h0
    have := (Atoi_range userID id ha).2
    omega
  · rw [hw]
    simp [cardFinalWorld, hamt, hcur]
  · rw [hw]
    simp [cardFinalWorld, hamt, hcur]
  · rw [hw]
    simp [cardFinalWorld]
  · have hnot : charge.ID ∉ u.Transactions.map Transaction.ID := by
      intro hmem
      obtain ⟨t, htm, hte⟩ := List.mem_map.1 hmem
      exact hfresh u hu t htm hte
    simp [User.countID, List.count_eq_zero_of_not_mem hnot, hid]

/-- C4 at the concrete request of the spec: amount `1000`, currency `thb`, an
existing user `1` who already holds one transaction; in the reference ledger
the transaction is stored and the user holds it after the earlier one. -/
theorem ChargeCreditCard_roundtrip_witness :
    (ChargeCreditCard memPorts 1000 "tokn_test_1" "1" world0).1 = .ok charge1000 ∧
    (ChargeCreditCard memPorts 1000 "tokn_test_1" "1" world0).2.ledger
      = { users := [("1", { ID := 1, Transactions := [earlier,
            { ID := "chrg_test_1", Amount := 1000, Currency := "thb", Created := 10,
              UserID := 1 }] })],
          transactions := [earlier,
            { ID := "chrg_test_1", Amount := 1000, Currency := "thb", Created := 10,
              UserID := 1 }] } ∧
    (charge1000.Amount = 1000 ∧ charge1000.Currency = "thb" ∧
      (memPorts.CreateCharge (cardCharge 1000 "tokn_test_1") world0.gateway).1
        = .ok charge1000 ∧
      ∃ u id tx r,
        (memPorts.GetUserByID "1" world0.ledger).1 = .ok u ∧
        Atoi "1" = .ok id ∧
        (0 ≤ id → (uint id : Int) = id) ∧
        (memPorts.CreateTransaction
            { ID := charge1000.ID, Amount := 1000, Currency := "thb",
              Created := world0.clock, UserID := uint id }
            (memPorts.GetUserByID "1" world0.ledger).2).1 = .ok tx ∧
        tx.ID = charge1000.ID ∧
        (memPorts.UpdateUser "1" { u with Transactions := u.Transactions ++ [tx] }
            (memPorts.CreateTransaction
              { ID := charge1000.ID, Amount := 1000, Currency := "thb",
                Created := world0.clock, UserID := uint id }
              (memPorts.GetUserByID "1" world0.ledger).2).2).1 = .ok r ∧
        (ChargeCreditCard memPorts 1000 "tokn_test_1" "1" world0).2.trace
          = world0.trace ++ [Event.Do (.CreateCharge (cardCharge 1000 "tokn_test_1")),
              Event.GetUserByID "1",
              Event.CreateTransaction
                { ID := charge1000.ID, Amount := 1000, Currency := "thb",
                  Created := world0.clock, UserID := uint id },
              Event.UpdateUser "1" { u with Transactions := u.Transactions ++ [tx] }] ∧
        (ChargeCreditCard memPorts 1000 "tokn_test_1" "1" world0).2.ledger
          = (memPorts.UpdateUser "1" { u with Transactions := u.Transactions ++ [tx] }
              (memPorts.CreateTransaction
                { ID := charge1000.ID, Amount := 1000, Currency := "thb",
                  Created := world0.clock, UserID := uint id }
                (memPorts.GetUserByID "1" world0.ledger).2).2).2 ∧
        (ChargeCreditCard memPorts 1000 "tokn_test_1" "1" world0).2.gateway
          = (memPorts.CreateCharge (cardCharge 1000 "tokn_test_1") world0.gateway).2 ∧
        User.countID { u with Transactions := u.Transactions ++ [tx] } charge1000.ID = 1) :=
  ⟨by decide, by decide,
   ChargeCreditCard_roundtrip memPorts 1000 "tokn_test_1" "1" world0 charge1000
    (by decide)
    (fun c hc => by
      have hc1 : (Except.ok charge1000 : Except GoError Charge) = .ok c := hc
      cases hc1
      decide)
    (fun u hu => by
      have hu1 : (Except.ok { ID := 1, Transactions := [earlier] } : Except GoError User)
          = .ok u := hu
      cases hu1
      decide)
    (fun t d r hr => by
      have hr1 : (Except.ok t : Except GoError Transaction) = .ok r := hr
      cases hr1
      rfl)⟩

/-! ## C5 and C6: the bank charge and the ledger -/

/-- C5, the code at the failing input: with a gateway that accepts the charge
and a user store whose `UpdateUser` fails, `ChargeBanking(5000, src_test_1, 1)`
calls `UpdateUser`, the call returns an error, and the operation still returns
the charge as a success.  `ChargeCreditCard` against the same collaborators
returns the error. -/
theorem ChargeBanking_hides_UpdateUser_failure :
    (ChargeBanking failingUpdatePorts 5000 "src_test_1" "1" world0).2.trace
      = [Event.Do (.CreateCharge (bankCharge 5000 "src_test_1")),
         Event.GetUserByID "1",
         Event.UpdateUser "1" { ID := 1, Transactions := [earlier] }] ∧
    (failingUpdatePorts.UpdateUser "1" { ID := 1, Transactions := [earlier] }
        world0.ledger).1 = .error (.external "ledger write failed") ∧
    (ChargeBanking failingUpdatePorts 5000 "src_test_1" "1" world0).1
      = .ok { ID := "chrg_test_1", Amount := 5000, Currency := "thb", Status := "pending",
              FailureCode := "", FailureMessage := "",
              AuthorizeURI := "https://pay.example/authorize" } ∧
    (ChargeCreditCard failingUpdatePorts 5000 "tokn_test_1" "1" world0).1
      = .error (.external "ledger write failed") := by
  decide

/-- C6, the code at the failing input and in general: `ChargeBanking` never
calls `CreateTransaction`, whatever the collaborators answer; the successful
bank charge `(5000, src_test_1, 1)` of an existing user leaves the ledger
exactly as it was, with no transaction for the returned charge `chrg_test_1`
and the user's collection unchanged. -/
theorem ChargeBanking_records_no_transaction :
    (∀ (γ δ : Type) (P : Ports γ δ) (amount : Int) (source userID : String) (w : World γ δ),
      createdTransactions (ChargeBanking P amount source userID w).2.trace
        = createdTransactions w.trace) ∧
    (ChargeBanking memPorts 5000 "src_test_1" "1" world0).1
      = .ok { ID := "chrg_test_1", Amount := 5000, Currency := "thb", Status := "pending",
              FailureCode := "", FailureMessage := "",
              AuthorizeURI := "https://pay.example/authorize" } ∧
    (ChargeBanking memPorts 5000 "src_test_1" "1" world0).2.ledger = world0.ledger ∧
    (ChargeBanking memPorts 5000 "src_test_1" "1" world0).2.trace
      = [Event.Do (.CreateCharge (bankCharge 5000 "src_test_1")),
         Event.GetUserByID "1",
         Event.UpdateUser "1" { ID := 1, Transactions := [earlier] }] := by
  refine ⟨?_, by decide, by decide, by decide⟩
  intro γ δ P amount source userID w
  unfold ChargeBanking
  simp only [ClientDo, GetUserByID, UpdateUser]
  repeat' split
  all_goals simp only [Prod.mk.injEq] at *
  all_goals try casesm* _ ∧ _
  all_goals subst_vars
  all_goals simp [createdTransactions_append, createdTransactions]

/-! ## C7, C8, C10: the webhook handler -/

/-- C7, the code at the failing input: for every non-empty body the status
code of the response is the value of the first byte of the body (a zero byte
goes out as 200); every body that starts with an opening brace, as every JSON
object does, is answered with status 123; so is the JSON payload
`chargeCompleteEvent`, and 123 is not an acknowledgement. -/
theorem HandleWebhook_status_is_first_byte :
    (∀ (γ δ : Type) (h : Ports γ δ) (b : Fin 256) (rest : List (Fin 256)) (w : World γ δ),
      (HandleWebhook h (b :: rest) w).1
        = .ok { StatusCode := if b.val = 0 then 200 else (b.val : Int) }) ∧
    (∀ (γ δ : Type) (h : Ports γ δ) (rest : List (Fin 256)) (w : World γ δ),
      (HandleWebhook h (123 :: rest) w).1 = .ok { StatusCode := 123 }) ∧
    (HandleWebhook memPorts chargeCompleteEvent world0).1 = .ok { StatusCode := 123 } ∧
    Response.isAck { StatusCode := 123 } = false := by
  refine ⟨?_, fun _ _ _ _ _ => rfl, by decide, by decide⟩
  intro γ δ h b rest w
  have hb : ((b.val : Int) ≤ 0) = (b.val = 0) := by
    apply propext
    omega
  simp only [HandleWebhook, SendStatus, hb]

/-- One delivery of a webhook request changes nothing in the world: the
handler calls no collaborator. -/
theorem deliver_eq (h : Ports γ δ) (body : List (Fin 256)) (w : World γ δ) :
    deliver h body w = w := by
  cases body <;> rfl

/-- C8: delivering the same webhook request `n` more times after its first
delivery leaves the world, and so the ledger and the trace of ledger calls,
exactly as the first delivery left it, for every body, every world and
every `n`. -/
theorem HandleWebhook_replay_unchanged (h : Ports γ δ) (body : List (Fin 256))
    (w : World γ δ) (n : Nat) :
    ((deliver h body)^[n] (deliver h body w)).ledger = (deliver h body w).ledger ∧
    ((deliver h body)^[n] (deliver h body w)).trace = (deliver h body w).trace ∧
    (deliver h body)^[n] (deliver h body w) = deliver h body w := by
  have hfix : (deliver h body)^[n] (deliver h body w) = deliver h body w :=
    Function.iterate_fixed (deliver_eq h body (deliver h body w)) n
  rw [hfix]
  exact ⟨rfl, rfl, rfl⟩

/-- C10, the code at the failing input: on the empty body the read of the
first byte is out of range, and the handler panics (index 0, length 0)
instead of returning a response. -/
theorem HandleWebhook_empty_body_panics (h : Ports γ δ) (w : World γ δ) :
    HandleWebhook h [] w = (.error (.indexOutOfRange 0 0), w) :=
  rfl

/-! ## C9: the query surface -/

/-- An operation with the body shared by the five read operations (build the
client, return its error; else `client.Do`, return its error or its result) is
a forwarding. -/
theorem forwards_of_shape {α : Type} (P : Ports γ δ)
    (run : World γ δ → Except GoError α × World γ δ)
    (answer : γ → Except GoError α × γ) (op : Operation)
    (hshape : ∀ w, run w =
      match NewOmiseClient P with
      | .error e => (.error e, w)
      | .ok () =>
        match ClientDo answer op w with
        | (.error err, w1) => (.error err, w1)
        | (.ok result, w1) => (.ok result, w1)) :
    Forwards P run answer op := by
  intro w
  have hdo : (match ClientDo answer op w with
      | (.error err, w1) => ((.error err : Except GoError α), w1)
      | (.ok result, w1) => (.ok result, w1))
      = ((answer w.gateway).1,
          { w with gateway := (answer w.gateway).2, trace := w.trace ++ [Event.Do op] }) := by
    unfold ClientDo
    cases (answer w.gateway).1 <;> rfl
  have hrun := hshape w
  cases hc : NewOmiseClient P with
  | error e0 =>
    rw [hc] at hrun
    simp only at hrun
    refine ⟨fun e he => ?_, fun h => ?_, ?_, ?_⟩
    · cases he
      exact hrun
    · cases h
    · rw [hrun]
    · rw [hrun]
  | ok u0 =>
    cases u0
    rw [hc] at hrun
    simp only at hrun
    rw [hdo] at hrun
    refine ⟨fun e he => ?_, fun _ => hrun, ?_, ?_⟩
    · cases he
    · rw [hrun]
    · rw [hrun]
      simp [ledgerCalls_append, ledgerCalls]

/-- C9, the claim as stated fails: in a process whose environment holds no
gateway keys, each of the five read operations returns the client-construction
error without sending any request to the gateway (none, not exactly one). -/
theorem read_operations_send_nothing_without_client :
    ((RetrieveCharge noKeyPorts "chrg_test_1" world0).1
        = .error (.external "invalid public or secret key") ∧
      gatewayRequests (RetrieveCharge noKeyPorts "chrg_test_1" world0).2.trace = []) ∧
    gatewayRequests (GetTransaction noKeyPorts "trxn_test_1" world0).2.trace = [] ∧
    gatewayRequests (GetCustomer noKeyPorts "cust_test_1" world0).2.trace = [] ∧
    gatewayRequests (ListCustomers noKeyPorts world0).2.trace = [] ∧
    gatewayRequests (GetCharges noKeyPorts world0).2.trace = [] := by
  decide

/-- C9, amended: each of `RetrieveCharge`, `GetTransaction`, `ListCustomers`,
`GetCustomer` and `GetCharges` is a pure forwarding.  When the gateway client
is constructed, the operation sends exactly one request, carrying the
caller's identifier unchanged, and returns the gateway's result, or the
gateway's error, as it is; when the client cannot be constructed it sends no
request and returns the construction error.  In every case it makes no call
to the user store or the transaction store and leaves the ledger unchanged. -/
theorem read_operations_forward (P : Ports γ δ) (chargeID transactionID customerID : String) :
    Forwards P (RetrieveCharge P chargeID) (P.RetrieveCharge chargeID)
      (.RetrieveCharge chargeID) ∧
    Forwards P (GetTransaction P transactionID) (P.RetrieveTransaction transactionID)
      (.RetrieveTransaction transactionID) ∧
    Forwards P (ListCustomers P) P.ListCustomers .ListCustomers ∧
    Forwards P (GetCustomer P customerID) (P.RetrieveCustomer customerID)
      (.RetrieveCustomer customerID) ∧
    Forwards P (GetCharges P) P.ListCharges .ListCharges :=
  ⟨forwards_of_shape P _ _ _ (fun w => by
      unfold RetrieveCharge
      cases NewOmiseClient P with
      | error e => rfl
      | ok u => cases h : (P.RetrieveCharge chargeID w.gateway).1 <;> simp [ClientDo, h]),
   forwards_of_shape P _ _ _ (fun w => by
      unfold GetTransaction
      cases NewOmiseClient P with
      | error e => rfl
      | ok u => cases h : (P.RetrieveTransaction transactionID w.gateway).1 <;> simp [ClientDo, h]),
   forwards_of_shape P _ _ _ (fun w => by
      unfold ListCustomers
      cases NewOmiseClient P with
      | error e => rfl
      | ok u => cases h : (P.ListCustomers w.gateway).1 <;> simp [ClientDo, h]),
   forwards_of_shape P _ _ _ (fun w => by
      unfold GetCustomer
      cases NewOmiseClient P with
      | error e => rfl
      | ok u => cases h : (P.RetrieveCustomer customerID w.gateway).1 <;> simp [ClientDo, h]),
   forwards_of_shape P _ _ _ (fun w => by
      unfold GetCharges
      cases NewOmiseClient P with
      | error e => rfl
      | ok u => cases h : (P.ListCharges w.gateway).1 <;> simp [ClientDo, h])⟩

/-- C9, amended, at concrete inputs: with the client constructed, retrieving
the unknown charge `chrg_test_9` sends that one request and returns the
gateway's error; without keys, the construction error is returned. -/
theorem read_operations_forward_witness :
    RetrieveCharge memPorts "chrg_test_9" world0
      = ((memPorts.RetrieveCharge "chrg_test_9" world0.gateway).1,
          { world0 with
            gateway := (memPorts.RetrieveCharge "chrg_test_9" world0.gateway).2,
            trace := world0.trace ++ [Event.Do (.RetrieveCharge "chrg_test_9")] }) ∧
    (RetrieveCharge memPorts "chrg_test_9" world0).1
      = .error (.external "charge was not found") ∧
    GetCustomer noKeyPorts "cust_test_1" world0
      = (.error (.external "invalid public or secret key"), world0) :=
  ⟨((read_operations_forward memPorts "chrg_test_9" "trxn_test_1" "cust_test_1").1
      world0).2.1 (by decide),
   by decide,
   ((read_operations_forward noKeyPorts "chrg_test_9" "trxn_test_1" "cust_test_1").2.2.2.1
      world0).1 _ (by decide)⟩

end Payment
